import Mathlib

/-!
Verification of the quicklang-bot message-dispatch layer.

The development shallowly embeds the three source modules:
- src/lib/TelegramBotService.ts : the dispatch registry and router
  (registerCommand, registerMessageHandler, handleMessage, setCommands);
- src/config/envConfig.ts : environment configuration defaults;
- src/helpers/logger.ts : the Logger class.

Handler callbacks are opaque to the router, so they are modelled by
natural-number identifiers; dispatching a message yields the list of
invoked callbacks in invocation order. Text is modelled as Lean String,
with character-level operations written over the underlying character
lists so that every definition evaluates by kernel reduction.

The transport library (node-telegram-bot-api) is not part of the
repository; the parts of its update processing that the service relies
on (the message event and the onText pattern dispatch) are modelled
after the documented behaviour of its processUpdate routine and are
flagged as such in the corresponding doc comments.
-/

namespace QuicklangBot

/-- JavaScript Char lowercasing as used by String.prototype.toLowerCase,
restricted to the ASCII range (Char.toLower lowercases exactly the ASCII
uppercase letters, which matches the texts this bot handles). -/
def jsLower (l : List Char) : List Char :=
  l.map Char.toLower

/-- JavaScript String.prototype.includes pat on the character list of the
receiver: substring containment. The empty pattern is contained in every
string, as in JavaScript. -/
def includesCL (pat : List Char) : List Char → Bool
  | [] => pat.isEmpty
  | c :: rest => pat.isPrefixOf (c :: rest) || includesCL pat rest

/-- Matching of the anchored pattern built by registerCommand, namely
new RegExp with source caret slash name, tested against the message text.
For a name free of regular-expression metacharacters (all names this bot
registers are alphanumeric) the test succeeds exactly when the text
starts with slash followed by the name. -/
def commandPatternTest (name text : String) : Bool :=
  (("/" ++ name).data).isPrefixOf text.data

/-- The trigger field of a MessageHandler in TelegramBotService.ts is the
union type string-or-RegExp; following the tagged-variant representation,
a regular-expression trigger carries its own match predicate (the test
method of the RegExp object). -/
inductive Trigger where
  | str (s : String)
  | pat (test : String → Bool)

/-- The trigger test performed by handleMessage: a string trigger is a
case-insensitive substring containment test (text and trigger are both
lowercased and includes is called); a RegExp trigger is its own test. -/
def triggerTest : Trigger → String → Bool
  | .str s, text => includesCL (jsLower s.data) (jsLower text.data)
  | .pat t, text => t text

/-- CommandHandler interface of TelegramBotService.ts; the handler
callback is modelled by an opaque identifier. -/
structure CommandHandler where
  command : String
  description : String
  handlerId : Nat
  deriving DecidableEq

/-- MessageHandler interface of TelegramBotService.ts; the handler
callback is modelled by an opaque identifier. -/
structure MessageHandler where
  trigger : Trigger
  handlerId : Nat

/-- One entry of the transport bot internal onText registration list:
the anchored pattern (represented by the command name it was built from)
together with the callback registered for it. -/
structure TextMatcher where
  name : String
  handlerId : Nat
  deriving DecidableEq

/-- An inbound chat message as far as the router reads it: an optional
text body (none models an absent text field). -/
structure Msg where
  text : Option String

/-- The mutable state of one TelegramBotService instance: its commands
and messageHandlers arrays, plus the onText registration list held
inside the wrapped transport bot object. -/
structure BotState where
  commands : List CommandHandler
  messageHandlers : List MessageHandler
  textMatchers : List TextMatcher

/-- State of a freshly constructed service: all three lists empty. -/
def initState : BotState :=
  { commands := [], messageHandlers := [], textMatchers := [] }

/-- registerCommand of TelegramBotService.ts: pushes the descriptor onto
the commands array and unconditionally registers one more onText matcher
with the transport, whose pattern is the anchored slash-name expression
and whose callback invokes the descriptor handler. -/
def registerCommand (s : BotState) (c : CommandHandler) : BotState :=
  { s with
    commands := s.commands ++ [c]
    textMatchers := s.textMatchers ++ [⟨c.command, c.handlerId⟩] }

/-- registerMessageHandler of TelegramBotService.ts: pushes the handler
onto the messageHandlers array. -/
def registerMessageHandler (s : BotState) (h : MessageHandler) : BotState :=
  { s with messageHandlers := s.messageHandlers ++ [h] }

/-- One invocation performed while dispatching a message: either an
onText command callback or a messageHandler trigger callback, identified
by the opaque handler identifier. -/
inductive Invocation where
  | cmd (id : Nat)
  | trig (id : Nat)
  deriving DecidableEq

/-- Whether an invocation went to a trigger (messageHandler) callback. -/
def Invocation.isTrig : Invocation → Bool
  | .cmd _ => false
  | .trig _ => true

/-- The for-loop of handleMessage: walk the messageHandlers array in
order, return the first handler whose trigger test succeeds. -/
def findTrigger (text : String) : List MessageHandler → Option MessageHandler
  | [] => none
  | h :: rest => if triggerTest h.trigger text then some h else findTrigger text rest

/-- handleMessage of TelegramBotService.ts: return immediately when the
message text is falsy (absent or empty), otherwise invoke the handler of
the first matching trigger and stop; invoke nothing when no trigger
matches. The result lists the invoked callbacks. -/
def handleMessage (s : BotState) (m : Msg) : List Invocation :=
  match m.text with
  | none => []
  | some t =>
    if t = "" then []
    else
      match findTrigger t s.messageHandlers with
      | some h => [.trig h.handlerId]
      | none => []

/-- Modelled after the transport library: node-telegram-bot-api runs the
registered onText entries with Array.prototype.some, invoking the
callback of every entry whose pattern matches the text; it stops at the
first match only when the option onlyFirstMatch is true. -/
def runTextCallbacks (onlyFirstMatch : Bool) (text : String) :
    List TextMatcher → List Invocation
  | [] => []
  | c :: rest =>
    if commandPatternTest c.name text then
      if onlyFirstMatch then [.cmd c.handlerId]
      else .cmd c.handlerId :: runTextCallbacks onlyFirstMatch text rest
    else runTextCallbacks onlyFirstMatch text rest

/-- Modelled after the transport library processUpdate routine: every
inbound message is first emitted on the message event, which this
service handles with handleMessage, and then, when the message has a
truthy text, every registered onText entry is tested. The service
constructs the bot with options that set only polling, so onlyFirstMatch
is undefined, hence falsy, and every matching onText callback runs. -/
def processUpdate (s : BotState) (m : Msg) : List Invocation :=
  handleMessage s m ++
    (match m.text with
     | none => []
     | some t => if t = "" then [] else runTextCallbacks false t s.textMatchers)

/-- One entry of the command menu pushed by setMyCommands. -/
structure BotCommand where
  command : String
  description : String
  deriving DecidableEq

/-- setCommands of TelegramBotService.ts: map the commands array to
command-description pairs and push them to the transport menu endpoint.
The service state is returned unchanged together with the published
list. -/
def setCommands (s : BotState) : BotState × List BotCommand :=
  (s, s.commands.map fun c => { command := c.command, description := c.description })

/-- Formalisation of the spec wording for command matching: the text
begins with a command token of the form slash name, optionally followed
by arguments, anchored at the start of the text. -/
def specCommandMatch (name text : String) : Prop :=
  ∃ args : String, text = "/" ++ name ++ args

/-- Formalisation of the spec wording for string-trigger matching: some
contiguous run of characters of the text equals the trigger under
case-insensitive character comparison. -/
def specCaseInsensitiveContains (text trig : String) : Prop :=
  ∃ u : List Char, u <:+: text.data ∧ u.map Char.toLower = trig.data.map Char.toLower

/-- Environment configuration record built by src/config/envConfig.ts. -/
structure EnvConfig where
  telegramToken : String
  googleKeyFilePath : String
  spreadsheetId : String
  deriving DecidableEq

/-- JavaScript logical-or defaulting as written in envConfig.ts: the
value when it is truthy, the empty string when it is undefined or empty. -/
def jsOrEmpty (v : Option String) : String :=
  match v with
  | none => ""
  | some s => if s = "" then "" else s

/-- envConfig of src/config/envConfig.ts, as a function of the process
environment (a partial map from variable names to values). -/
def envConfig (env : String → Option String) : EnvConfig :=
  { telegramToken := jsOrEmpty (env "TELEGRAM_TOKEN")
    googleKeyFilePath := jsOrEmpty (env "GOOGLE_KEY_FILE_PATH")
    spreadsheetId := jsOrEmpty (env "GOOGLE_SPREADSHEET_ID") }

/-- The four log levels of src/helpers/logger.ts. -/
inductive LogLevel where
  | info
  | warn
  | error
  | debug
  deriving DecidableEq

/-- The chalk colors the logger uses for console output. -/
inductive ChalkColor where
  | green
  | yellow
  | red
  | gray
  deriving DecidableEq

/-- One line written to the console: an optional chalk color applied to
the text. -/
structure ConsoleLine where
  color : Option ChalkColor
  text : String
  deriving DecidableEq

/-- The externally observable effect of one Logger.log call: the console
lines printed, and the string appended to the log file (none when the
file write failed). -/
structure LogOutput where
  console : List ConsoleLine
  fileAppended : Option String
  deriving DecidableEq

namespace Logger

/-- The template literal of Logger.log building logMessage: the bracketed
timestamp, then the instance prefix followed by a space when it is
nonempty, then a colon, a space and the message. The level does not
appear. -/
def formatLogMessage (pfx timestamp message : String) : String :=
  "[" ++ timestamp ++ "]" ++ (if pfx.length > 0 then pfx ++ " " else "") ++ ": " ++ message

/-- getColoredMessage of logger.ts: chalk color chosen by level, message
text unchanged. -/
def getColoredMessage (level : LogLevel) (message : String) : ConsoleLine :=
  match level with
  | .info => { color := some .green, text := message }
  | .warn => { color := some .yellow, text := message }
  | .error => { color := some .red, text := message }
  | .debug => { color := some .gray, text := message }

/-- Logger.log of logger.ts. The current timestamp and the success of
the file append are environment effects, passed in as parameters, as is
the text of the caught exception. On success the console receives the
colored line and the file receives the uncolored line plus a newline; on
failure the file is untouched and a red logger-error line is additionally
printed to the console. The call returns normally in both cases. -/
def log (level : LogLevel) (message : String) (pfx timestamp : String)
    (writeOk : Bool) (errText : String) : LogOutput :=
  let logMessage := formatLogMessage pfx timestamp message
  let colored := getColoredMessage level logMessage
  if writeOk then
    { console := [colored], fileAppended := some (logMessage ++ "\n") }
  else
    { console := [colored,
        { color := some .red,
          text := "[LOGGER ERROR]: Unable to write to file - " ++ errText }]
      fileAppended := none }

end Logger

/-- A state registering the command hello and then the string trigger
hello: the message text slash-hello then matches both paths. -/
def exclusivityState : BotState :=
  registerMessageHandler (registerCommand initState ⟨"hello", "d", 0⟩) ⟨.str "hello", 1⟩

/-- A state registering the command add before the command addword, the
prefix-overlap situation named by the spec. -/
def shadowState : BotState :=
  registerCommand (registerCommand initState ⟨"add", "a", 0⟩) ⟨"addword", "b", 1⟩

/-- A state with two string triggers registered in order, both matching
the text foo. -/
def twoTriggerState : BotState :=
  registerMessageHandler (registerMessageHandler initState ⟨.str "foo", 5⟩) ⟨.str "foo", 6⟩

/-- A state registering the name start twice with distinct descriptors. -/
def duplicateNameState : BotState :=
  registerCommand (registerCommand initState ⟨"start", "first", 0⟩) ⟨"start", "second", 1⟩

/-- The includes test decides substring containment of character lists. -/
theorem includesCL_eq_true_iff (pat l : List Char) : includesCL pat l = true ↔ pat <:+: l := by
  induction l with
  | nil => simp [includesCL, List.isEmpty_iff]
  | cons c rest ih =>
    simp [includesCL, List.infix_cons_iff, List.isPrefixOf_iff_prefix, ih, Bool.or_eq_true]

/-- A contiguous run of the image of a map arises as the image of a
contiguous run of the original list. -/
theorem map_infix_decomp {f : Char → Char} {pat l : List Char}
    (h : pat.map f <:+: l.map f) : ∃ u, u <:+: l ∧ u.map f = pat.map f := by
  obtain ⟨s, t, hst⟩ := h
  have h1 : l.map f = s ++ (pat.map f ++ t) := by
    rw [← hst]; simp [List.append_assoc]
  obtain ⟨s', rest, hl, hs', hrest⟩ := List.map_eq_append_iff.mp h1
  obtain ⟨u, t', hrest2, hu, ht'⟩ := List.map_eq_append_iff.mp hrest
  exact ⟨u, ⟨s', t', by rw [hl, hrest2]; simp [List.append_assoc]⟩, hu⟩

/-- The string-trigger test of handleMessage coincides with the spec
notion of case-insensitive substring containment. -/
theorem triggerTest_str_iff (trig text : String) :
    triggerTest (.str trig) text = true ↔ specCaseInsensitiveContains text trig := by
  unfold triggerTest specCaseInsensitiveContains jsLower
  rw [includesCL_eq_true_iff]
  constructor
  · exact map_infix_decomp
  · rintro ⟨u, hinf, hmap⟩
    rw [← hmap]
    exact hinf.map _

/-- The anchored pattern registered by registerCommand matches exactly
the texts beginning with slash followed by the command name. -/
theorem commandPatternTest_iff (name text : String) :
    commandPatternTest name text = true ↔ specCommandMatch name text := by
  unfold commandPatternTest specCommandMatch
  rw [List.isPrefixOf_iff_prefix]
  constructor
  · rintro ⟨t, ht⟩
    refine ⟨String.mk t, String.ext ?_⟩
    rw [String.data_append]
    exact ht.symm
  · rintro ⟨args, rfl⟩
    rw [String.data_append]
    exact ⟨args.data, rfl⟩

/-- The trigger loop returns the first matching handler, however the
list continues past it. -/
theorem findTrigger_append (text : String) (l1 l2 : List MessageHandler) (t1 : MessageHandler)
    (hl1 : ∀ h ∈ l1, triggerTest h.trigger text = false)
    (ht1 : triggerTest t1.trigger text = true) :
    findTrigger text (l1 ++ t1 :: l2) = some t1 := by
  induction l1 with
  | nil => simp [findTrigger, ht1]
  | cons a as ih =>
    have ha := hl1 a (by simp)
    simp only [List.cons_append, findTrigger, ha]
    simp only [Bool.false_eq_true, if_false]
    exact ih fun h hm => hl1 h (by simp [hm])

/-- With onlyFirstMatch false the transport invokes exactly the matching
onText callbacks, in registration order. -/
theorem runTextCallbacks_false_filter (text : String) (ms : List TextMatcher) :
    runTextCallbacks false text ms =
      (ms.filter fun c => commandPatternTest c.name text).map fun c => Invocation.cmd c.handlerId := by
  induction ms with
  | nil => rfl
  | cons c rest ih =>
    by_cases h : commandPatternTest c.name text = true
    · simp [runTextCallbacks, h, List.filter_cons, ih]
    · simp [runTextCallbacks, h, List.filter_cons, ih]

/-- The onText dispatch never performs a trigger invocation. -/
theorem runTextCallbacks_countP_trig (b : Bool) (text : String) (ms : List TextMatcher) :
    (runTextCallbacks b text ms).countP Invocation.isTrig = 0 := by
  induction ms with
  | nil => rfl
  | cons c rest ih =>
    by_cases h : commandPatternTest c.name text = true
    · cases b <;> simp [runTextCallbacks, h, List.countP_cons, Invocation.isTrig, ih]
    · cases b <;> simp [runTextCallbacks, h, ih]

/-- handleMessage performs at most one trigger invocation. -/
theorem handleMessage_countP_le (s : BotState) (m : Msg) :
    (handleMessage s m).countP Invocation.isTrig ≤ 1 := by
  unfold handleMessage
  cases m.text with
  | none => simp
  | some t =>
    by_cases ht : t = ""
    · simp [ht]
    · simp only [ht, if_false]
      cases findTrigger t s.messageHandlers <;> simp [List.countP_cons, Invocation.isTrig]

/-- The trigger loop finds nothing when no registered trigger matches. -/
theorem findTrigger_eq_none (text : String) (l : List MessageHandler)
    (h : ∀ x ∈ l, triggerTest x.trigger text = false) : findTrigger text l = none := by
  induction l with
  | nil => rfl
  | cons a as ih =>
    simp only [findTrigger, h a (by simp), Bool.false_eq_true, if_false]
    exact ih fun x hx => h x (by simp [hx])

/-- C1, counterexample: the command and trigger paths are not mutually
exclusive. With the command hello and the string trigger hello both
registered, the message text slash-hello matches the registered command
pattern, yet dispatching it invokes the trigger handler (callback 1) in
addition to the command handler (callback 0): handleMessage never
consults the command list, and the transport delivers every text message
both to the message event and to the onText matchers. -/
theorem command_and_trigger_both_invoked :
    commandPatternTest "hello" "/hello" = true ∧
    processUpdate exclusivityState ⟨some "/hello"⟩ = [Invocation.trig 1, Invocation.cmd 0] := by
  exact ⟨by decide, by decide⟩

/-- C1, amended: for every inbound message at most one trigger handler
is invoked (the trigger loop stops at its first match), but the command
path is independent rather than mutually exclusive: on the concrete
state registering the command hello and the trigger hello, the message
slash-hello produces exactly one trigger invocation and one command
invocation. -/
theorem trigger_path_at_most_one_not_exclusive :
    (∀ (s : BotState) (m : Msg), (processUpdate s m).countP Invocation.isTrig ≤ 1) ∧
    (processUpdate exclusivityState ⟨some "/hello"⟩).countP Invocation.isTrig = 1 ∧
    (processUpdate exclusivityState ⟨some "/hello"⟩).countP (fun i => !(Invocation.isTrig i)) = 1 := by
  refine ⟨fun s m => ?_, by decide, by decide⟩
  unfold processUpdate
  rw [List.countP_append]
  have h2 : (match m.text with
      | none => []
      | some t => if t = "" then [] else runTextCallbacks false t s.textMatchers).countP
        Invocation.isTrig = 0 := by
    cases m.text with
    | none => rfl
    | some t =>
      by_cases ht : t = ""
      · simp [ht]
      · simp [ht, runTextCallbacks_countP_trig]
  rw [h2]
  simpa using handleMessage_countP_le s m

/-- C2, counterexample: with add registered before addword, the message
text slash-addword-extra is dispatched to both anchored patterns: the
transport runs every matching onText callback (onlyFirstMatch is not
set), so the earlier add pattern does not win exclusively and the
addword handler (callback 1) is invoked as well. -/
theorem prefix_overlap_both_handlers_invoked :
    processUpdate shadowState ⟨some "/addword extra"⟩ = [Invocation.cmd 0, Invocation.cmd 1] ∧
    Invocation.cmd 1 ∈ processUpdate shadowState ⟨some "/addword extra"⟩ := by decide

/-- C2, amended: a message text matches a registered command pattern
exactly when it begins with slash followed by the command name, with
arguments optionally following (matching anchored at the start); when
several registered names are textual prefixes of one another every
matching pattern fires, in registration order, rather than the
first-registered one capturing the message exclusively. -/
theorem commandPattern_prefix_all_matching_run :
    (∀ name text : String, commandPatternTest name text = true ↔ specCommandMatch name text) ∧
    (∀ (text : String) (ms : List TextMatcher),
      runTextCallbacks false text ms =
        (ms.filter fun c => commandPatternTest c.name text).map fun c => Invocation.cmd c.handlerId) :=
  ⟨commandPatternTest_iff, runTextCallbacks_false_filter⟩

/-- C3, confirmed: triggers are tested in registration order and the
first matching trigger has its handler invoked, after which matching
stops: with the registered triggers split as l1 before t1, where nothing
in l1 matches and t1 matches, exactly the t1 handler is invoked, and the
outcome is the same whatever triggers are registered after t1 — in
particular, when a later t2 also matches, only the t1 handler runs. -/
theorem first_matching_trigger_wins (s : BotState) (text : String)
    (l1 l2 : List MessageHandler) (t1 : MessageHandler)
    (htext : text ≠ "")
    (hreg : s.messageHandlers = l1 ++ t1 :: l2)
    (hl1 : ∀ h ∈ l1, triggerTest h.trigger text = false)
    (ht1 : triggerTest t1.trigger text = true) :
    handleMessage s ⟨some text⟩ = [Invocation.trig t1.handlerId] ∧
    ∀ l2' : List MessageHandler,
      handleMessage { s with messageHandlers := l1 ++ t1 :: l2' } ⟨some text⟩ =
        [Invocation.trig t1.handlerId] := by
  constructor
  · simp only [handleMessage, if_neg htext, hreg,
      findTrigger_append text l1 l2 t1 hl1 ht1]
  · intro l2'
    simp only [handleMessage, if_neg htext,
      findTrigger_append text l1 l2' t1 hl1 ht1]

/-- C3, witness: two string triggers foo are registered in order with
callbacks 5 and 6; the text foo matches both, and only callback 5 runs,
also when the second trigger is replaced by an arbitrary later list. -/
theorem first_matching_trigger_wins_witness :
    handleMessage twoTriggerState ⟨some "foo"⟩ = [Invocation.trig 5] ∧
    handleMessage { twoTriggerState with
        messageHandlers := [] ++ (⟨.str "foo", 5⟩ : MessageHandler) :: [⟨.str "bar", 7⟩] }
      ⟨some "foo"⟩ = [Invocation.trig 5] := by
  have h := first_matching_trigger_wins twoTriggerState "foo" [] [⟨.str "foo", 6⟩]
    ⟨.str "foo", 5⟩ (by decide) rfl (by simp) (by decide)
  exact ⟨h.1, h.2 [⟨.str "bar", 7⟩]⟩

/-- C4, counterexample: registering the name start twice leaves two live
entries with the same name: the registration is neither rejected nor
does it overwrite the existing entry (both descriptions survive, in
order), so the uniqueness invariant fails. -/
theorem duplicate_command_names_both_live :
    duplicateNameState.commands.length = 2 ∧
    duplicateNameState.commands.map CommandHandler.command = ["start", "start"] ∧
    duplicateNameState.commands.map CommandHandler.description = ["first", "second"] := by
  decide

/-- C4, amended: registerCommand appends unconditionally; registering a
second command with an already registered name keeps both entries live,
so at least two entries then carry that name. -/
theorem registerCommand_duplicate_appends (s : BotState) (c d : CommandHandler)
    (hname : d.command = c.command) :
    c ∈ (registerCommand (registerCommand s c) d).commands ∧
    d ∈ (registerCommand (registerCommand s c) d).commands ∧
    2 ≤ (registerCommand (registerCommand s c) d).commands.countP
          fun e => e.command == c.command := by
  refine ⟨by simp [registerCommand], by simp [registerCommand], ?_⟩
  simp [registerCommand, List.countP_append, List.countP_cons, hname]

/-- C4, witness: the duplicate registration of start evaluated on the
concrete state. -/
theorem registerCommand_duplicate_appends_witness :
    (⟨"start", "first", 0⟩ : CommandHandler) ∈ duplicateNameState.commands ∧
    (⟨"start", "second", 1⟩ : CommandHandler) ∈ duplicateNameState.commands ∧
    2 ≤ duplicateNameState.commands.countP fun e => e.command == "start" :=
  registerCommand_duplicate_appends initState ⟨"start", "first", 0⟩ ⟨"start", "second", 1⟩ rfl

/-- C5, confirmed: a string trigger matches a message text exactly when
the trigger is contained in the text as a substring under
case-insensitive character comparison; concretely the trigger hello
matches the text Say HELLO now. -/
theorem string_trigger_case_insensitive_contains :
    (∀ trig text : String,
      triggerTest (.str trig) text = true ↔ specCaseInsensitiveContains text trig) ∧
    triggerTest (.str "hello") "Say HELLO now" = true :=
  ⟨triggerTest_str_iff, by decide⟩

/-- C6, confirmed: a message without a text body (or with the empty,
hence falsy, text) dispatches no handler, and a text matching no
registered command pattern and no registered trigger dispatches no
handler either; dispatch is a total function whose entire output is the
invocation list, so no error is raised and no fallback reply exists. -/
theorem no_text_or_no_match_invokes_nothing (s : BotState) (m : Msg) :
    (m.text = none → processUpdate s m = []) ∧
    (m.text = some "" → processUpdate s m = []) ∧
    (∀ t, m.text = some t →
      (∀ c ∈ s.textMatchers, commandPatternTest c.name t = false) →
      (∀ h ∈ s.messageHandlers, triggerTest h.trigger t = false) →
      processUpdate s m = []) := by
  refine ⟨fun h => ?_, fun h => ?_, fun t ht hc htr => ?_⟩
  · simp [processUpdate, handleMessage, h]
  · simp [processUpdate, handleMessage, h]
  · have hft : findTrigger t s.messageHandlers = none := findTrigger_eq_none t _ htr
    by_cases h0 : t = ""
    · simp [processUpdate, handleMessage, ht, h0]
    · have hrun : runTextCallbacks false t s.textMatchers = [] := by
        rw [runTextCallbacks_false_filter]
        have : s.textMatchers.filter (fun c => commandPatternTest c.name t) = [] := by
          rw [List.filter_eq_nil_iff]
          intro c hcm
          simp [hc c hcm]
        rw [this]; rfl
      simp [processUpdate, handleMessage, ht, h0, hft, hrun]

/-- C6, witness: on the state registering the command hello and the
trigger hello, a message without text, a message with empty text and the
non-matching text xyz each dispatch nothing. -/
theorem no_text_or_no_match_invokes_nothing_witness :
    processUpdate exclusivityState ⟨none⟩ = [] ∧
    processUpdate exclusivityState ⟨some ""⟩ = [] ∧
    processUpdate exclusivityState ⟨some "xyz"⟩ = [] :=
  ⟨(no_text_or_no_match_invokes_nothing exclusivityState ⟨none⟩).1 rfl,
   (no_text_or_no_match_invokes_nothing exclusivityState ⟨some ""⟩).2.1 rfl,
   (no_text_or_no_match_invokes_nothing exclusivityState ⟨some "xyz"⟩).2.2 "xyz" rfl
     (by decide) (by decide)⟩

/-- C7, confirmed: setCommands publishes exactly one command-description
pair per registered command, pointwise in registration order (the
published list corresponds element by element to the commands array, so
it has no extra, missing or duplicated entries beyond the registrations);
the service state is unchanged and a repeated call re-publishes the same
list. -/
theorem setCommands_registration_order_idempotent (s : BotState) :
    List.Forall₂ (fun c p => p.command = c.command ∧ p.description = c.description)
      s.commands (setCommands s).2 ∧
    (setCommands s).1 = s ∧
    (setCommands ((setCommands s).1)).2 = (setCommands s).2 ∧
    (setCommands s).2.length = s.commands.length := by
  refine ⟨?_, rfl, rfl, by simp [setCommands]⟩
  rw [setCommands]
  exact List.forall₂_map_right_iff.mpr (List.forall₂_same.2 fun a _ => ⟨rfl, rfl⟩)

/-- C8, confirmed: registration is append-only: registerCommand extends
the commands array by exactly one entry at the end, keeping the previous
entries as an unchanged initial segment, and does not touch the trigger
list (it also only appends to the transport matcher list);
registerMessageHandler does the same for the messageHandlers array and
does not touch the commands. -/
theorem registration_append_only (s : BotState) (c : CommandHandler) (h : MessageHandler) :
    s.commands <+: (registerCommand s c).commands ∧
    (registerCommand s c).commands.length = s.commands.length + 1 ∧
    (registerCommand s c).commands.getLast? = some c ∧
    (registerCommand s c).messageHandlers = s.messageHandlers ∧
    s.textMatchers <+: (registerCommand s c).textMatchers ∧
    s.messageHandlers <+: (registerMessageHandler s h).messageHandlers ∧
    (registerMessageHandler s h).messageHandlers.length = s.messageHandlers.length + 1 ∧
    (registerMessageHandler s h).messageHandlers.getLast? = some h ∧
    (registerMessageHandler s h).commands = s.commands := by
  refine ⟨List.prefix_append _ _, by simp [registerCommand], List.getLast?_concat _, rfl,
    List.prefix_append _ _, List.prefix_append _ _, by simp [registerMessageHandler],
    List.getLast?_concat _, rfl⟩

/-- C9, confirmed: for each of the three environment settings, when the
corresponding variable is absent the configuration field is the empty
string; envConfig is a total function into a record of strings, so the
configuration layer never fails on a missing variable. -/
theorem envConfig_missing_vars_default_empty (env : String → Option String) :
    (env "TELEGRAM_TOKEN" = none → (envConfig env).telegramToken = "") ∧
    (env "GOOGLE_KEY_FILE_PATH" = none → (envConfig env).googleKeyFilePath = "") ∧
    (env "GOOGLE_SPREADSHEET_ID" = none → (envConfig env).spreadsheetId = "") := by
  refine ⟨fun h => ?_, fun h => ?_, fun h => ?_⟩ <;> simp [envConfig, jsOrEmpty, h]

/-- C9, witness: the empty environment yields the all-empty
configuration. -/
theorem envConfig_missing_vars_default_empty_witness :
    (envConfig fun _ => none).telegramToken = "" ∧
    (envConfig fun _ => none).googleKeyFilePath = "" ∧
    (envConfig fun _ => none).spreadsheetId = "" :=
  ⟨(envConfig_missing_vars_default_empty fun _ => none).1 rfl,
   (envConfig_missing_vars_default_empty fun _ => none).2.1 rfl,
   (envConfig_missing_vars_default_empty fun _ => none).2.2 rfl⟩

/-- C10, confirmed: for every pair of log levels the string appended to
the log file is identical — bracketed timestamp, optional prefix, colon
and message, with no level recorded — the level changes only the color
of the console line (the printed texts agree across levels), and a
failed file write leaves the file untouched and adds one console error
line while the call still returns normally. -/
theorem log_file_line_level_independent (lv lv' : LogLevel) (pfx ts msg et : String) :
    (∀ ok : Bool, (Logger.log lv msg pfx ts ok et).fileAppended =
                  (Logger.log lv' msg pfx ts ok et).fileAppended) ∧
    (Logger.log lv msg pfx ts true et).fileAppended =
      some ("[" ++ ts ++ "]" ++ (if pfx.length > 0 then pfx ++ " " else "") ++ ": " ++ msg ++ "\n") ∧
    (∀ ok : Bool, (Logger.log lv msg pfx ts ok et).console.map ConsoleLine.text =
                  (Logger.log lv' msg pfx ts ok et).console.map ConsoleLine.text) ∧
    (Logger.log lv msg pfx ts false et).fileAppended = none ∧
    (Logger.log lv msg pfx ts false et).console.length = 2 := by
  refine ⟨fun ok => ?_, rfl, fun ok => ?_, rfl, rfl⟩
  · cases ok <;> rfl
  · cases ok <;> cases lv <;> cases lv' <;> rfl

end QuicklangBot
